import Mathlib

/-!
Shallow embedding of `flow/networks/da_yuan.py` (class `DaYuanNetwork`):
the node, edge, connection and route generators of the Da Yuan corridor
network, together with theorems about the properties of the generated
topology.  Python dicts are embedded as Lean structures, the `defaultdict`
of routes and the connection dict as association lists in insertion order,
and floating-point weights as exact rationals.
-/

namespace Flow

/-- Module-level constant `section_length = 100` of da_yuan.py. -/
def section_length : ℚ := 100

/-- A node dict as produced by `_inner_nodes` / `_outer_nodes`:
keys `id`, `x`, `y`, `type` and (inner nodes only) `radius`. -/
structure Node where
  id : String
  x : ℚ
  y : ℚ
  type : String
  radius : Option ℚ
deriving DecidableEq, Inhabited

/-- An edge dict as produced by `_inner_edges` / `_outer_edges`:
keys `id`, `priority`, `from` (here `frm`, since `from` is reserved),
`to` and `length`. -/
structure Edge where
  id : String
  priority : Int
  frm : String
  «to» : String
  length : ℚ
deriving DecidableEq, Inhabited

/-- A connection dict as produced by `specify_connections`. -/
structure Connection where
  frm : String
  «to» : String
  fromLane : String
  toLane : String
  signal_group : Int
deriving DecidableEq, Inhabited

/-- The part of `net_params.additional_params` that `DaYuanNetwork` reads:
`additional_params.get("traffic_lights", True)`; `none` models the key being
absent from the dict. -/
structure NetParams where
  traffic_lights : Option Bool
deriving DecidableEq

/-- The attributes `DaYuanNetwork.__init__` sets on the instance. -/
structure DaYuanNetwork where
  use_traffic_lights : Bool
  inner_nodes_radius : ℚ
  num_edges : Nat
  name : String
deriving DecidableEq

/-- `DaYuanNetwork.__init__` (da_yuan.py lines 95-116): reads the
`traffic_lights` flag with default `True`, fixes the inner-node radius 6.2,
sets `num_edges = 8` and the network name. -/
def DaYuanNetwork.init (net_params : NetParams) : DaYuanNetwork :=
  { use_traffic_lights := net_params.traffic_lights.getD true,
    inner_nodes_radius := 62/10,
    num_edges := 8,
    name := "BobLoblawsLawBlog" }

/-- Property `_inner_nodes`: four nodes `inner{i}` at `x = (i+1)*section_length`,
`y = 0`, type decided by the traffic-lights flag, fixed radius. -/
def DaYuanNetwork.innerNodes (self : DaYuanNetwork) : List Node :=
  let node_type := if self.use_traffic_lights then ("traffic_light") else ("priority")
  (List.range 4).map fun i =>
    { id := "inner" ++ toString i,
      x := ((i : ℚ) + 1) * section_length,
      y := 0,
      type := node_type,
      radius := some self.inner_nodes_radius }

/-- Property `_outer_nodes`: six boundary nodes `out0` .. `out5` at fixed
positions, all of type "priority", with no radius key. -/
def DaYuanNetwork.outerNodes (self : DaYuanNetwork) : List Node :=
  let new_node := fun (x y : ℚ) (name : String) =>
    [({ id := name, x := x, y := y, type := "priority", radius := none } : Node)]
  new_node 0 0 ("out0")
    ++ new_node (section_length) (section_length) ("out1")
    ++ new_node (2 * section_length) (section_length) ("out2")
    ++ new_node (3 * section_length) (section_length) ("out3")
    ++ new_node (4 * section_length) (section_length) ("out4")
    ++ new_node (5 * section_length) 0 ("out5")

/-- Property `_inner_edges`: for i in range(3), the two directed edges
`inner{i}_0` (from `inner{i}` to `inner{i+1}`) and `inner{i}_1` (the reverse),
each with priority 78 and length `section_length`.  The `orientation`
argument is unused in the source (its use is commented out). -/
def DaYuanNetwork.innerEdges (self : DaYuanNetwork) : List Edge :=
  let new_edge := fun (index from_node to_node : Nat) (orientation : String) (lane : Nat) =>
    [({ id := "inner" ++ toString index ++ "_" ++ toString lane,
        priority := 78,
        frm := "inner" ++ toString from_node,
        «to» := "inner" ++ toString to_node,
        length := section_length } : Edge)]
  (List.range 3).foldl
    (fun edges i =>
      edges ++ new_edge i i (i + 1) ("horizontal") 0
            ++ new_edge i (i + 1) (i) ("horizontal") 1)
    []

/-- Property `_outer_edges`: twelve directed edges `out{i}_{lane}` joining each
boundary node to its nearest inner node, mirroring the sequential
`out_node` / `inner_node` reassignments of the source. -/
def DaYuanNetwork.outerEdges (self : DaYuanNetwork) : List Edge :=
  let new_edge := fun (index : Nat) (from_node to_node orientation : String) (lane : Nat) =>
    [({ id := "out" ++ toString index ++ "_" ++ toString lane,
        priority := 78,
        frm := from_node,
        «to» := to_node,
        length := section_length } : Edge)]
  let edges : List Edge := []
  let out_node := "out0"
  let inner_node := "inner0"
  let edges := edges ++ new_edge 0 out_node inner_node ("horizontal") 0
  let edges := edges ++ new_edge 0 inner_node out_node ("horizontal") 1
  let out_node := "out1"
  let edges := edges ++ new_edge 1 out_node inner_node ("vertical") 0
  let edges := edges ++ new_edge 1 inner_node out_node ("vertical") 1
  let out_node := "out2"
  let inner_node := "inner1"
  let edges := edges ++ new_edge 2 out_node inner_node ("vertical") 0
  let edges := edges ++ new_edge 2 inner_node out_node ("vertical") 1
  let out_node := "out3"
  let inner_node := "inner2"
  let edges := edges ++ new_edge 3 out_node inner_node ("vertical") 0
  let edges := edges ++ new_edge 3 inner_node out_node ("vertical") 1
  let out_node := "out4"
  let inner_node := "inner3"
  let edges := edges ++ new_edge 4 out_node inner_node ("vertical") 0
  let edges := edges ++ new_edge 4 inner_node out_node ("vertical") 1
  let out_node := "out5"
  let edges := edges ++ new_edge 5 out_node inner_node ("horizontal") 1
  let edges := edges ++ new_edge 5 inner_node out_node ("horizontal") 0
  edges

/-- `specify_nodes`: inner nodes followed by outer nodes. -/
def DaYuanNetwork.specify_nodes (self : DaYuanNetwork) (net_params : NetParams) : List Node :=
  self.innerNodes ++ self.outerNodes

/-- `specify_edges`: inner edges followed by outer edges. -/
def DaYuanNetwork.specify_edges (self : DaYuanNetwork) (net_params : NetParams) : List Edge :=
  self.innerEdges ++ self.outerEdges

/-- One weighted path of the route table: a sequence of edge ids and a
probability (a Python float literal, embedded as the exact rational). -/
abbrev WeightedPath := List String × ℚ

/-- The route table: entry-edge keys paired with their weighted paths, in the
insertion order of the source's `defaultdict`. -/
abbrev RouteTable := List (String × List WeightedPath)

/-- `specify_routes` (da_yuan.py lines 126-187): the hand-written weighted
route table, keyed by entry edge. -/
def DaYuanNetwork.specify_routes (self : DaYuanNetwork) (net_params : NetParams) : RouteTable :=
  [ ("out0_0",
      [ (["out0_0", "out1_1"], 1/10),
        (["out0_0", "inner0_0", "out2_1"], 1/10),
        (["out0_0", "inner0_0", "inner1_0", "out3_1"], 1/10),
        (["out0_0", "inner0_0", "inner1_0", "inner2_0", "out4_1"], 3/10),
        (["out0_0", "inner0_0", "inner1_0", "inner2_0", "out5_0"], 4/10) ]),
    ("out1_0",
      [ (["out1_0", "out0_1"], 1/10),
        (["out1_0", "inner0_0", "out2_1"], 1/10),
        (["out1_0", "inner0_0", "inner1_0", "out3_1"], 1/10),
        (["out1_0", "inner0_0", "inner1_0", "inner2_0", "out4_1"], 3/10),
        (["out1_0", "inner0_0", "inner1_0", "inner2_0", "out5_0"], 4/10) ]),
    ("out2_0",
      [ (["out2_0", "inner0_1", "out0_1"], 1/10),
        (["out2_0", "inner0_1", "out1_1"], 1/10),
        (["out2_0", "inner1_0", "out3_1"], 1/10),
        (["out2_0", "inner1_0", "inner2_0", "out4_1"], 3/10),
        (["out2_0", "inner1_0", "inner2_0", "out5_0"], 4/10) ]),
    ("out3_0",
      [ (["out3_0", "inner1_1", "inner0_1", "out0_1"], 1/10),
        (["out3_0", "inner1_1", "inner0_1", "out1_1"], 1/10),
        (["out3_0", "inner1_1", "out2_1"], 1/10),
        (["out3_0", "inner2_0", "out4_1"], 3/10),
        (["out3_0", "inner2_0", "out5_0"], 4/10) ]),
    ("out4_0",
      [ (["out4_0", "inner2_1", "inner1_1", "inner0_1", "out0_1"], 1/10),
        (["out4_0", "inner2_1", "inner1_1", "inner0_1", "out1_1"], 1/10),
        (["out4_0", "inner2_1", "inner1_1", "out2_1"], 1/10),
        (["out4_0", "inner2_1", "out3_1"], 3/10),
        (["out4_0", "out5_0"], 4/10) ]),
    ("out5_1",
      [ (["out5_1", "inner2_1", "inner1_1", "inner0_1", "out0_1"], 1/5),
        (["out5_1", "inner2_1", "inner1_1", "inner0_1", "out1_1"], 1/5),
        (["out5_1", "inner2_1", "inner1_1", "out2_1"], 1/5),
        (["out5_1", "inner2_1", "out3_1"], 1/5),
        (["out5_1", "out4_1"], 1/5) ]) ]

/-- The local helper `new_con` of `specify_connections`: lane and
signal group are always passed as 1, and lanes are stored as `str(lane-1)`. -/
def new_con (from_id to_id : String) (lane : Int) (signal_group : Int) : List Connection :=
  [{ frm := from_id,
     «to» := to_id,
     fromLane := toString (lane - 1),
     toLane := toString (lane - 1),
     signal_group := signal_group }]

/-- `specify_connections` (da_yuan.py lines 341-401): the permitted
movements grouped under keys `inner0` .. `inner3`, in insertion order. -/
def DaYuanNetwork.specify_connections (self : DaYuanNetwork) (net_params : NetParams) :
    List (String × List Connection) :=
  let conn0 :=
    new_con ("out0_0") ("out1_1") 1 1
      ++ new_con ("out0_0") ("inner0_0") 1 1
      ++ new_con ("out1_0") ("out0_1") 1 1
      ++ new_con ("out1_0") ("inner0_0") 1 1
      ++ new_con ("inner0_1") ("out0_1") 1 1
      ++ new_con ("inner0_1") ("out1_1") 1 1
  let conn1 :=
    new_con ("inner0_0") ("out2_1") 1 1
      ++ new_con ("inner0_0") ("inner1_0") 1 1
      ++ new_con ("out2_0") ("inner0_1") 1 1
      ++ new_con ("out2_0") ("inner1_0") 1 1
      ++ new_con ("inner1_1") ("out2_1") 1 1
      ++ new_con ("inner1_1") ("inner0_1") 1 1
  let conn2 :=
    new_con ("inner1_0") ("out3_1") 1 1
      ++ new_con ("inner1_0") ("inner2_0") 1 1
      ++ new_con ("out3_0") ("inner1_1") 1 1
      ++ new_con ("out3_0") ("inner2_0") 1 1
      ++ new_con ("inner2_1") ("out3_1") 1 1
      ++ new_con ("inner2_1") ("inner1_1") 1 1
  let conn3 :=
    new_con ("inner2_0") ("out4_1") 1 1
      ++ new_con ("inner2_0") ("out5_0") 1 1
      ++ new_con ("out4_0") ("inner2_1") 1 1
      ++ new_con ("out4_0") ("out5_0") 1 1
      ++ new_con ("out5_1") ("out4_1") 1 1
      ++ new_con ("out5_1") ("inner2_1") 1 1
  [("inner0", conn0), ("inner1", conn1), ("inner2", conn2), ("inner3", conn3)]

/-- Look an edge up by its id in a list of edge dicts. -/
def findEdge (edges : List Edge) (eid : String) : Option Edge :=
  edges.find? (fun e => e.id == eid)

/-- A path (sequence of edge ids) is contiguous with respect to an edge list:
every consecutive pair of ids names two edges of the list, and the `to` node
of the former equals the `frm` node of the latter. -/
def chainOk (edges : List Edge) : List String → Bool
  | [] => true
  | [_] => true
  | a :: b :: rest =>
    (match findEdge edges a, findEdge edges b with
      | some ea, some eb => ea.«to» == eb.frm
      | _, _ => false)
      && chainOk edges (b :: rest)

/-- The sum of the probabilities of a list of weighted paths. -/
def weightSum (paths : List WeightedPath) : ℚ :=
  (paths.map Prod.snd).sum

/-- Modelled from the spec: the error kinds of §7 that route validation can
raise; the validation code itself (flow.networks.base and the engine glue)
is not under src/. -/
inductive RouteError where
  | RouteWeightError (entry : String)
deriving DecidableEq

/-- Modelled from the spec: §4.4 / §7 route-weight validation, absent from
src/ — "a path whose probabilities for one entry edge do not sum to 1
(within tolerance, e.g. 1e-6) fails with RouteWeightError", fail-fast at the
first violating entry edge. -/
def validateRouteWeights : RouteTable → Except RouteError Unit
  | [] => Except.ok ()
  | (entry, paths) :: rest =>
    if |weightSum paths - 1| ≤ 1/1000000 then validateRouteWeights rest
    else Except.error (RouteError.RouteWeightError entry)

/-- The perturbation of the C7 scenario: in the entry `out0_0`, the single
path carrying weight 0.3 (the one through `out4_1`) gets weight 0.35
instead; everything else is unchanged. -/
def perturbOut0 (routes : RouteTable) : RouteTable :=
  routes.map fun kv =>
    if kv.1 == "out0_0" then
      (kv.1, kv.2.map fun wp =>
        if wp.1 == ["out0_0", "inner0_0", "inner1_0", "inner2_0", "out4_1"]
        then (wp.1, 35/100) else wp)
    else kv

/-- Shared helper: the weight-sum bound for every entry of the route table;
reused both as the C1 property and as the input of the route validator. -/
theorem routes_weight_bound (net : DaYuanNetwork) (np : NetParams) :
    ∀ kv ∈ net.specify_routes np, |weightSum kv.2 - 1| ≤ 1/1000000 := by
  intro kv hkv
  simp only [DaYuanNetwork.specify_routes, List.mem_cons, List.not_mem_nil,
    or_false] at hkv
  rcases hkv with rfl | rfl | rfl | rfl | rfl | rfl <;>
    norm_num [weightSum, abs_le]

/-- Shared helper: the validator accepts a route table whose entries all
satisfy the weight-sum bound. -/
theorem validateRouteWeights_eq_ok (r : RouteTable)
    (h : ∀ kv ∈ r, |weightSum kv.2 - 1| ≤ 1/1000000) :
    validateRouteWeights r = Except.ok () := by
  induction r with
  | nil => rfl
  | cons hd tl ih =>
    obtain ⟨entry, paths⟩ := hd
    rw [validateRouteWeights, if_pos (h _ (List.mem_cons_self _ _))]
    exact ih fun kv hkv => h kv (List.mem_cons_of_mem _ hkv)

/-- Shared helper: the validator rejects, fail-fast, a route table whose
first entry violates the weight-sum bound. -/
theorem validateRouteWeights_cons_err (entry : String) (paths : List WeightedPath)
    (rest : RouteTable) (h : 1/1000000 < |weightSum paths - 1|) :
    validateRouteWeights ((entry, paths) :: rest)
      = Except.error (RouteError.RouteWeightError entry) := by
  rw [validateRouteWeights, if_neg (not_le.mpr h)]

/-- C1: for every entry-edge key of the dict returned by `specify_routes`
(out0_0, out1_0, out2_0, out3_0, out4_0, out5_1), the probabilities of the
weighted paths listed under that key sum to 1.0 within 1e-6. -/
theorem specify_routes_weight_sum_one (net : DaYuanNetwork) (np : NetParams) :
    ∀ kv ∈ net.specify_routes np, |weightSum kv.2 - 1| ≤ 1/1000000 :=
  routes_weight_bound net np

/-- Witness for C1: the property at the first entry of the route table of a
concretely constructed network. -/
theorem specify_routes_weight_sum_one_witness :
    |weightSum (((DaYuanNetwork.init ⟨none⟩).specify_routes ⟨none⟩).headI.2) - 1|
      ≤ 1/1000000 :=
  specify_routes_weight_sum_one (DaYuanNetwork.init ⟨none⟩) ⟨none⟩ _
    (List.Mem.head _)

/-- C2: every weighted path of `specify_routes` is contiguous with respect to
the edges produced by `_inner_edges` and `_outer_edges`: the `to` node of
each edge of the path equals the `from` node of the next one. -/
theorem specify_routes_paths_contiguous (net : DaYuanNetwork) (np : NetParams) :
    ∀ kv ∈ net.specify_routes np, ∀ wp ∈ kv.2,
      chainOk (net.specify_edges np) wp.1 = true := by
  show ∀ kv ∈ (DaYuanNetwork.init ⟨none⟩).specify_routes ⟨none⟩, ∀ wp ∈ kv.2,
    chainOk ((DaYuanNetwork.init ⟨none⟩).specify_edges ⟨none⟩) wp.1 = true
  decide

/-- Witness for C2: contiguity of the first path of the first route entry of
a concretely constructed network. -/
theorem specify_routes_paths_contiguous_witness :
    chainOk ((DaYuanNetwork.init ⟨none⟩).specify_edges ⟨none⟩)
      ((((DaYuanNetwork.init ⟨none⟩).specify_routes ⟨none⟩).headI.2).headI.1) = true :=
  specify_routes_paths_contiguous (DaYuanNetwork.init ⟨none⟩) ⟨none⟩ _
    (List.Mem.head _) _ (List.Mem.head _)

/-- C3: both endpoints of every edge returned by `specify_edges` occur among
the ids of the nodes returned by `specify_nodes`. -/
theorem edges_endpoints_in_nodes (net : DaYuanNetwork) (np : NetParams) :
    ∀ e ∈ net.specify_edges np,
      (((net.specify_nodes np).map Node.id).contains e.frm) = true ∧
      (((net.specify_nodes np).map Node.id).contains e.«to») = true := by
  have hn : (net.specify_nodes np).map Node.id
      = ["inner0", "inner1", "inner2", "inner3",
         "out0", "out1", "out2", "out3", "out4", "out5"] := rfl
  rw [hn]
  show ∀ e ∈ (DaYuanNetwork.init ⟨none⟩).specify_edges ⟨none⟩,
      ((["inner0", "inner1", "inner2", "inner3",
         "out0", "out1", "out2", "out3", "out4", "out5"].contains e.frm) = true) ∧
      ((["inner0", "inner1", "inner2", "inner3",
         "out0", "out1", "out2", "out3", "out4", "out5"].contains e.«to») = true)
  decide

/-- Witness for C3: the property at the first edge of a concretely
constructed network. -/
theorem edges_endpoints_in_nodes_witness :
    ((((DaYuanNetwork.init ⟨none⟩).specify_nodes ⟨none⟩).map Node.id).contains
      ((DaYuanNetwork.init ⟨none⟩).specify_edges ⟨none⟩).headI.frm) = true ∧
    ((((DaYuanNetwork.init ⟨none⟩).specify_nodes ⟨none⟩).map Node.id).contains
      ((DaYuanNetwork.init ⟨none⟩).specify_edges ⟨none⟩).headI.«to») = true :=
  edges_endpoints_in_nodes (DaYuanNetwork.init ⟨none⟩) ⟨none⟩ _ (List.Mem.head _)

/-- C4: both edge ids of every connection listed under every interior-node
key of `specify_connections` occur among the ids of the edges returned by
`specify_edges`. -/
theorem connections_reference_existing_edges (net : DaYuanNetwork) (np : NetParams) :
    ∀ kv ∈ net.specify_connections np, ∀ c ∈ kv.2,
      ((((net.specify_edges np).map Edge.id).contains c.frm) = true) ∧
      ((((net.specify_edges np).map Edge.id).contains c.«to») = true) := by
  show ∀ kv ∈ (DaYuanNetwork.init ⟨none⟩).specify_connections ⟨none⟩, ∀ c ∈ kv.2,
      (((((DaYuanNetwork.init ⟨none⟩).specify_edges ⟨none⟩).map Edge.id).contains
        c.frm) = true) ∧
      (((((DaYuanNetwork.init ⟨none⟩).specify_edges ⟨none⟩).map Edge.id).contains
        c.«to») = true)
  decide

/-- Witness for C4: the property at the first connection of the first
interior node of a concretely constructed network. -/
theorem connections_reference_existing_edges_witness :
    (((((DaYuanNetwork.init ⟨none⟩).specify_edges ⟨none⟩).map Edge.id).contains
      (((DaYuanNetwork.init ⟨none⟩).specify_connections ⟨none⟩).headI.2).headI.frm)
        = true) ∧
    (((((DaYuanNetwork.init ⟨none⟩).specify_edges ⟨none⟩).map Edge.id).contains
      (((DaYuanNetwork.init ⟨none⟩).specify_connections ⟨none⟩).headI.2).headI.«to»)
        = true) :=
  connections_reference_existing_edges (DaYuanNetwork.init ⟨none⟩) ⟨none⟩ _
    (List.Mem.head _) _ (List.Mem.head _)

/-- C5: the network has exactly 4 interior and 6 boundary nodes, and
`specify_edges` returns exactly 18 edges: 6 inner ones plus 12 outer ones. -/
theorem network_element_counts (net : DaYuanNetwork) (np : NetParams) :
    net.innerNodes.length = 4 ∧ net.outerNodes.length = 6 ∧
    net.innerEdges.length = 6 ∧ net.outerEdges.length = 12 ∧
    (net.specify_edges np).length = 18 :=
  ⟨rfl, rfl, rfl, rfl, rfl⟩

/-- C6: the i-th interior node (i < 4) has id `inner{i}`, position
x = (i+1)*section_length, y = 0, the fixed radius 6.2, and a type tag
determined solely by the traffic-lights flag, the same for all four. -/
theorem inner_nodes_spec (params : NetParams) (i : Nat) (hi : i < 4) :
    ((DaYuanNetwork.init params).innerNodes).get? i = some
      { id := "inner" ++ toString i,
        x := ((i : ℚ) + 1) * section_length,
        y := 0,
        type := if (DaYuanNetwork.init params).use_traffic_lights
          then ("traffic_light") else ("priority"),
        radius := some (62/10) } := by
  interval_cases i <;> rfl

/-- Witness for C6: the property at index 0 for a concretely constructed
network. -/
theorem inner_nodes_spec_witness :
    ((DaYuanNetwork.init ⟨none⟩).innerNodes).get? 0 = some
      { id := "inner" ++ toString (0 : Nat),
        x := (((0 : Nat) : ℚ) + 1) * section_length,
        y := 0,
        type := if (DaYuanNetwork.init ⟨none⟩).use_traffic_lights
          then ("traffic_light") else ("priority"),
        radius := some (62/10) } :=
  inner_nodes_spec ⟨none⟩ 0 (by decide)

/-- C7: the spec-modelled route-weight validation accepts the declared
weights of `specify_routes`, and rejects the table in which the 0.3 weight
of one of out0_0's paths is perturbed to 0.35, raising RouteWeightError. -/
theorem route_weight_validation (net : DaYuanNetwork) (np : NetParams) :
    validateRouteWeights (net.specify_routes np) = Except.ok () ∧
    validateRouteWeights (perturbOut0 (net.specify_routes np))
      = Except.error (RouteError.RouteWeightError ("out0_0")) := by
  constructor
  · exact validateRouteWeights_eq_ok _ (routes_weight_bound net np)
  · have h1 : perturbOut0 (net.specify_routes np)
        = ("out0_0",
            [ (["out0_0", "out1_1"], 1/10),
              (["out0_0", "inner0_0", "out2_1"], 1/10),
              (["out0_0", "inner0_0", "inner1_0", "out3_1"], 1/10),
              (["out0_0", "inner0_0", "inner1_0", "inner2_0", "out4_1"], 35/100),
              (["out0_0", "inner0_0", "inner1_0", "inner2_0", "out5_0"], 4/10) ])
          :: ((net.specify_routes np).tail.map fun kv =>
              if kv.1 == "out0_0" then
                (kv.1, kv.2.map fun wp =>
                  if wp.1 == ["out0_0", "inner0_0", "inner1_0", "inner2_0", "out4_1"]
                  then (wp.1, 35/100) else wp)
              else kv) := rfl
    rw [h1]
    exact validateRouteWeights_cons_err _ _ _ (by norm_num [weightSum, lt_abs])

/-- C8: two generation runs from equal inputs return element-for-element
equal node, edge, connection and route collections. -/
theorem generation_deterministic (p q np1 np2 : NetParams)
    (hpq : p = q) (hnp : np1 = np2) :
    (DaYuanNetwork.init p).specify_nodes np1
      = (DaYuanNetwork.init q).specify_nodes np2 ∧
    (DaYuanNetwork.init p).specify_edges np1
      = (DaYuanNetwork.init q).specify_edges np2 ∧
    (DaYuanNetwork.init p).specify_connections np1
      = (DaYuanNetwork.init q).specify_connections np2 ∧
    (DaYuanNetwork.init p).specify_routes np1
      = (DaYuanNetwork.init q).specify_routes np2 := by
  subst hpq
  subst hnp
  exact ⟨rfl, rfl, rfl, rfl⟩

/-- Witness for C8: determinism instantiated at a concrete parameter set. -/
theorem generation_deterministic_witness :
    (DaYuanNetwork.init ⟨none⟩).specify_nodes ⟨none⟩
      = (DaYuanNetwork.init ⟨none⟩).specify_nodes ⟨none⟩ ∧
    (DaYuanNetwork.init ⟨none⟩).specify_edges ⟨none⟩
      = (DaYuanNetwork.init ⟨none⟩).specify_edges ⟨none⟩ ∧
    (DaYuanNetwork.init ⟨none⟩).specify_connections ⟨none⟩
      = (DaYuanNetwork.init ⟨none⟩).specify_connections ⟨none⟩ ∧
    (DaYuanNetwork.init ⟨none⟩).specify_routes ⟨none⟩
      = (DaYuanNetwork.init ⟨none⟩).specify_routes ⟨none⟩ :=
  generation_deterministic ⟨none⟩ ⟨none⟩ ⟨none⟩ ⟨none⟩ rfl rfl

/-- C9: every route list is keyed by the edge on which its paths begin: the
first edge id of every weighted path equals that entry's key. -/
theorem routes_keyed_by_first_edge (net : DaYuanNetwork) (np : NetParams) :
    ∀ kv ∈ net.specify_routes np, ∀ wp ∈ kv.2, wp.1.head? = some kv.1 := by
  show ∀ kv ∈ (DaYuanNetwork.init ⟨none⟩).specify_routes ⟨none⟩, ∀ wp ∈ kv.2,
    wp.1.head? = some kv.1
  decide

/-- Witness for C9: the property at the first path of the first route entry
of a concretely constructed network. -/
theorem routes_keyed_by_first_edge_witness :
    ((((DaYuanNetwork.init ⟨none⟩).specify_routes ⟨none⟩).headI.2).headI.1).head?
      = some (((DaYuanNetwork.init ⟨none⟩).specify_routes ⟨none⟩).headI.1) :=
  routes_keyed_by_first_edge (DaYuanNetwork.init ⟨none⟩) ⟨none⟩ _
    (List.Mem.head _) _ (List.Mem.head _)

/-- C10: `__init__` sets `num_edges` to the constant 8, while
`specify_edges` always returns a list of length 18, so the attribute does
not equal the number of edges actually produced. -/
theorem num_edges_attribute_mismatch (p np : NetParams) :
    (DaYuanNetwork.init p).num_edges = 8 ∧
    ((DaYuanNetwork.init p).specify_edges np).length = 18 ∧
    (DaYuanNetwork.init p).num_edges
      ≠ ((DaYuanNetwork.init p).specify_edges np).length := by
  refine ⟨rfl, rfl, ?_⟩
  show (8 : Nat) ≠ 18
  decide

end Flow
